import Mathlib

/-!
Verification development for the TelegramBotPDF repository.

The definitions below are a shallow embedding of the adaptive
rasterization-compression pipeline implemented in src/pdf_processor.py and
of its callers in src/main.py.  External effects (file sizes, the outcome
of a Ghostscript or PyMuPDF compression attempt) are abstracted as
explicit parameters; machine arithmetic on sizes uses Nat, tone arithmetic
uses the rationals.  Each definition is translated from the named source
function; theorems about the frozen claims follow the definitions.
-/

namespace TelegramBotPDF

/-- Compression method identifiers used throughout pdf_processor.py
(the keys of the settings table in compress_pdf_with_method). -/
inductive Method where
  | light
  | balanced
  | aggressive
  | extreme
deriving DecidableEq, Repr

/-- Fields of the analyze_pdf_structure result (pdf_processor.py lines
642-671) that smart_compress_pdf consults: has_images and has_text come
from sampling the first min(3, pages) pages, fileSize from os.path.getsize. -/
structure Profile where
  hasImages : Bool
  hasText : Bool
  fileSize : Nat
deriving DecidableEq, Repr

/-- Method selection of smart_compress_pdf (pdf_processor.py lines
615-625): images and more than 50MB give extreme, images and more than
10MB give aggressive, images give balanced, text without images gives
light, otherwise balanced. -/
def selectMethod (p : Profile) : Method :=
  if p.hasImages then
    if 52428800 < p.fileSize then Method.extreme
    else if 10485760 < p.fileSize then Method.aggressive
    else Method.balanced
  else if p.hasText && !p.hasImages then Method.light
  else Method.balanced

/-- Policy table as the specification words it (section 4.4), evaluated
top to bottom: has_raster_images and byte_size over 50MB gives extreme,
has_raster_images and byte_size over 10MB gives aggressive,
has_raster_images gives balanced, has_text and not has_raster_images
gives light, otherwise balanced. -/
def specSelectMethod (p : Profile) : Method :=
  if p.hasImages = true ∧ 52428800 < p.fileSize then Method.extreme
  else if p.hasImages = true ∧ 10485760 < p.fileSize then Method.aggressive
  else if p.hasImages = true then Method.balanced
  else if p.hasText = true ∧ p.hasImages = false then Method.light
  else Method.balanced

/-- Fixed list methods_to_try of compress_pdf (pdf_processor.py line 572). -/
def methodsToTry : List Method :=
  [Method.aggressive, Method.balanced, Method.light, Method.extreme]

/-- Loop body of compress_pdf (pdf_processor.py lines 574-595) over an
abstract content type: sz gives the byte size of a content, att the
outcome of compress_pdf_with_method on a content (none when the attempt
failed or raised).  An output is returned when its ratio to the original
is below 0.9, that is 10 times the output size is below 9 times the
original size, or when the current method is extreme, the final entry of
methods_to_try; a rejected output is deleted and the next method tried. -/
def compressLoop {α : Type} (sz : α → Nat) (att : α → Method → Option α)
    (doc : α) : List Method → Option α
  | [] => none
  | m :: rest =>
    match att doc m with
    | some out =>
      if 10 * sz out < 9 * sz doc ∨ m = Method.extreme then some out
      else compressLoop sz att doc rest
    | none => compressLoop sz att doc rest

/-- Methods actually attempted by the compress_pdf loop before it returns,
in order: an accepted attempt ends the list, a failed or rejected attempt
is followed by the next method. -/
def compressTrace {α : Type} (sz : α → Nat) (att : α → Method → Option α)
    (doc : α) : List Method → List Method
  | [] => []
  | m :: rest =>
    match att doc m with
    | some out =>
      if 10 * sz out < 9 * sz doc ∨ m = Method.extreme then [m]
      else m :: compressTrace sz att doc rest
    | none => m :: compressTrace sz att doc rest

/-- compress_pdf (pdf_processor.py lines 557-598): despite taking a method
argument, it always iterates the fixed list methods_to_try; the result is
some compressed content, or none when the loop fell through and the
original path is returned. -/
def compress_pdf {α : Type} (sz : α → Nat) (att : α → Method → Option α)
    (doc : α) (_method : Method) : Option α :=
  compressLoop sz att doc methodsToTry

/-- smart_compress_pdf (pdf_processor.py lines 600-630): selects a method
from the structural profile and passes it to compress_pdf. -/
def smart_compress_pdf {α : Type} (sz : α → Nat) (att : α → Method → Option α)
    (p : Profile) (doc : α) : Option α :=
  compress_pdf sz att doc (selectMethod p)

/-- compress_pdf_with_settings (pdf_processor.py lines 760-782): when
smart_compress_pdf produced a new file, the file stored at the original
path is removed and the new file renamed onto it; the value is the
content afterwards stored at the original path. -/
def compress_pdf_with_settings {α : Type} (sz : α → Nat)
    (att : α → Method → Option α) (p : Profile) (doc : α) : α :=
  match smart_compress_pdf sz att p doc with
  | some out => out
  | none => doc

/-- Retry loop of compress_pdf_safe (pdf_processor.py lines 958-975):
methods light, balanced, aggressive are attempted on the content now at
the input path, and an output is kept only when strictly smaller than the
recorded original size. -/
def safeLoop {α : Type} (sz : α → Nat) (att : α → Method → Option α)
    (doc : α) (origSize : Nat) : List Method → Option α
  | [] => none
  | m :: rest =>
    match att doc m with
    | some t =>
      if sz t < origSize then some t else safeLoop sz att doc origSize rest
    | none => safeLoop sz att doc origSize rest

/-- compress_pdf_safe (pdf_processor.py lines 943-981): records the
original size, runs compress_pdf_with_settings (which overwrites the
input path), keeps the result when strictly smaller, otherwise retries
light, balanced, aggressive on the overwritten content and finally
returns the input path, whose content is by then the overwritten one. -/
def compress_pdf_safe {α : Type} (sz : α → Nat) (att : α → Method → Option α)
    (p : Profile) (doc : α) : α :=
  let origSize := sz doc
  let c := compress_pdf_with_settings sz att p doc
  if sz c < origSize then c
  else
    match safeLoop sz att c origSize [Method.light, Method.balanced, Method.aggressive] with
    | some t => t
    | none => c

/-- Attempt environment in which the three cheaper methods produce no
output on the 1000 byte original and extreme produces a 2000 byte file;
contents are identified with their byte sizes. -/
def attExtremeLarger : Nat → Method → Option Nat :=
  fun doc m => if doc = 1000 ∧ m = Method.extreme then some 2000 else none

/-- Attempt environment in which every method fails. -/
def attAllFail : Nat → Method → Option Nat := fun _ _ => none

/-- Structural profile of a 120MB document with raster images. -/
def profile120MB : Profile := ⟨true, true, 125829120⟩

/-- Structural profile of a small text-only document of 1000 bytes. -/
def profileTextOnly : Profile := ⟨false, true, 1000⟩

lemma compressLoop_eq_none_trace {α : Type} (sz : α → Nat)
    (att : α → Method → Option α) (doc : α) :
    ∀ L : List Method, compressLoop sz att doc L = none →
      compressTrace sz att doc L = L := by
  intro L
  induction L with
  | nil => intro _; rfl
  | cons m rest ih =>
    intro h
    simp only [compressLoop] at h
    simp only [compressTrace]
    cases hm : att doc m with
    | none =>
      rw [hm] at h
      exact congrArg (List.cons m) (ih h)
    | some out =>
      rw [hm] at h
      have h2 : (if 10 * sz out < 9 * sz doc ∨ m = Method.extreme then some out
          else compressLoop sz att doc rest) = none := h
      show (if 10 * sz out < 9 * sz doc ∨ m = Method.extreme then [m]
          else m :: compressTrace sz att doc rest) = m :: rest
      by_cases hacc : 10 * sz out < 9 * sz doc ∨ m = Method.extreme
      · rw [if_pos hacc] at h2
        cases h2
      · rw [if_neg hacc] at h2
        rw [if_neg hacc]
        exact congrArg (List.cons m) (ih h2)

/-- C1: on a 1000 byte input where the methods aggressive, balanced and
light produce no output and extreme produces a 2000 byte file, the last
attempt is accepted unconditionally by compress_pdf, the output is
renamed over the original path by compress_pdf_with_settings, and
compress_pdf_safe returns that path, whose content is now 2000 bytes: the
caller receives a file strictly larger than its input, contradicting the
claimed never-larger invariant. -/
theorem C1_compress_can_return_larger :
    smart_compress_pdf (fun n => n) attExtremeLarger profileTextOnly 1000 = some 2000 ∧
    compress_pdf_safe (fun n => n) attExtremeLarger profileTextOnly 1000 = 2000 ∧
    1000 < 2000 := by decide

/-- C2: the claim that the first compression attempt uses the selected
primary method fails: for a 120MB document with raster images the
selector picks extreme, yet when every attempt fails the attempted
methods are exactly aggressive, balanced, light, extreme in that fixed
order, so the first attempt is aggressive, not the primary pick. -/
theorem C2_primary_method_ignored_cex :
    selectMethod profile120MB = Method.extreme ∧
    compressTrace (fun n => n) attAllFail 125829120 methodsToTry = methodsToTry ∧
    (compressTrace (fun n => n) attAllFail 125829120 methodsToTry).head? ≠
      some (selectMethod profile120MB) := by decide

/-- C2 amended: smart_compress_pdf selects the primary method exactly per
the policy table of the specification, but compress_pdf ignores the
method it is given: its result is the same for any two method arguments,
and whenever it gives up and the original is handed back, every method of
methods_to_try was attempted. -/
theorem C2_selection_fixed_fallback {α : Type} (sz : α → Nat)
    (att : α → Method → Option α) (doc : α) (p : Profile) (m1 m2 : Method)
    (hnone : compress_pdf sz att doc m1 = none) :
    selectMethod p = specSelectMethod p ∧
    compress_pdf sz att doc m1 = compress_pdf sz att doc m2 ∧
    compressTrace sz att doc methodsToTry = methodsToTry := by
  refine ⟨?_, rfl, compressLoop_eq_none_trace sz att doc methodsToTry hnone⟩
  rcases p with ⟨hi, ht, n⟩
  cases hi <;> cases ht <;>
    by_cases h1 : 52428800 < n <;> by_cases h2 : 10485760 < n <;>
    simp [selectMethod, specSelectMethod, h1, h2]

/-- C2 amended, witness: in the environment where every attempt fails on
a 7 byte document, compress_pdf gives up, the selection of the 120MB
profile agrees with the specification table, the method argument is
irrelevant, and all four methods were attempted. -/
theorem C2_selection_fixed_fallback_witness :
    compress_pdf (fun n => n) attAllFail 7 Method.light = none ∧
    (selectMethod profile120MB = specSelectMethod profile120MB ∧
     compress_pdf (fun n => n) attAllFail 7 Method.light =
       compress_pdf (fun n => n) attAllFail 7 Method.extreme ∧
     compressTrace (fun n => n) attAllFail 7 methodsToTry = methodsToTry) :=
  ⟨by decide, C2_selection_fixed_fallback (fun n => n) attAllFail 7 profile120MB
    Method.light Method.extreme (by decide)⟩

/-- Zoom factor pdf_to_images (pdf_processor.py lines 528-539) uses for a
page whose native point rectangle is w by h, at the requested dpi and
pixel ceiling maxSize: zoom is dpi / 72; when the projected width or
height exceeds maxSize the zoom is multiplied by maxSize over the larger
projected dimension. -/
def adjustedZoom (w h dpi maxSize : ℚ) : ℚ :=
  let zoom := dpi / 72
  let width := w * zoom
  let height := h * zoom
  if maxSize < width ∨ maxSize < height then zoom * (maxSize / max width height)
  else zoom

lemma adjustedZoom_eq_rescaled (w h dpi maxSize : ℚ)
    (hcond : maxSize < w * (dpi / 72) ∨ maxSize < h * (dpi / 72)) :
    adjustedZoom w h dpi maxSize =
      (dpi / 72) * (maxSize / max (w * (dpi / 72)) (h * (dpi / 72))) :=
  if_pos hcond

lemma adjustedZoom_eq_zoom (w h dpi maxSize : ℚ)
    (hcond : ¬(maxSize < w * (dpi / 72) ∨ maxSize < h * (dpi / 72))) :
    adjustedZoom w h dpi maxSize = dpi / 72 :=
  if_neg hcond

/-- C3: for positive page dimensions, dpi and ceiling, the rasterization
zoom of pdf_to_images keeps both projected pixel dimensions within the
ceiling, never exceeds the requested dpi zoom of dpi over 72 (the ceiling
only downscales), stays positive, and preserves the aspect ratio w over h
exactly. -/
theorem C3_raster_ceiling (w h dpi maxSize : ℚ) (hw : 0 < w) (hh : 0 < h)
    (hd : 0 < dpi) (hm : 0 < maxSize) :
    w * adjustedZoom w h dpi maxSize ≤ maxSize ∧
    h * adjustedZoom w h dpi maxSize ≤ maxSize ∧
    adjustedZoom w h dpi maxSize ≤ dpi / 72 ∧
    0 < adjustedZoom w h dpi maxSize ∧
    w * adjustedZoom w h dpi maxSize / (h * adjustedZoom w h dpi maxSize) = w / h := by
  have h72 : (0:ℚ) < 72 := by norm_num
  have hz : 0 < dpi / 72 := div_pos hd h72
  have hW : 0 < w * (dpi / 72) := mul_pos hw hz
  have haspect : ∀ z1 : ℚ, 0 < z1 → w * z1 / (h * z1) = w / h := by
    intro z1 hz1
    rw [mul_comm w z1, mul_comm h z1]
    exact mul_div_mul_left w h (ne_of_gt hz1)
  by_cases hcond : maxSize < w * (dpi / 72) ∨ maxSize < h * (dpi / 72)
  · rw [adjustedZoom_eq_rescaled w h dpi maxSize hcond]
    have hMpos : 0 < max (w * (dpi / 72)) (h * (dpi / 72)) :=
      lt_of_lt_of_le hW (le_max_left _ _)
    have hMS : maxSize < max (w * (dpi / 72)) (h * (dpi / 72)) := by
      rcases hcond with hc | hc
      · exact lt_of_lt_of_le hc (le_max_left _ _)
      · exact lt_of_lt_of_le hc (le_max_right _ _)
    have hzpos : 0 < (dpi / 72) * (maxSize / max (w * (dpi / 72)) (h * (dpi / 72))) :=
      mul_pos hz (div_pos hm hMpos)
    refine ⟨?_, ?_, ?_, hzpos, haspect _ hzpos⟩
    · have key : w * ((dpi / 72) * (maxSize / max (w * (dpi / 72)) (h * (dpi / 72)))) =
          (w * (dpi / 72) / max (w * (dpi / 72)) (h * (dpi / 72))) * maxSize := by
        ring
      rw [key]
      have hle : w * (dpi / 72) / max (w * (dpi / 72)) (h * (dpi / 72)) ≤ 1 :=
        (div_le_one hMpos).mpr (le_max_left _ _)
      calc (w * (dpi / 72) / max (w * (dpi / 72)) (h * (dpi / 72))) * maxSize
          ≤ 1 * maxSize := mul_le_mul_of_nonneg_right hle (le_of_lt hm)
        _ = maxSize := one_mul _
    · have key : h * ((dpi / 72) * (maxSize / max (w * (dpi / 72)) (h * (dpi / 72)))) =
          (h * (dpi / 72) / max (w * (dpi / 72)) (h * (dpi / 72))) * maxSize := by
        ring
      rw [key]
      have hle : h * (dpi / 72) / max (w * (dpi / 72)) (h * (dpi / 72)) ≤ 1 :=
        (div_le_one hMpos).mpr (le_max_right _ _)
      calc (h * (dpi / 72) / max (w * (dpi / 72)) (h * (dpi / 72))) * maxSize
          ≤ 1 * maxSize := mul_le_mul_of_nonneg_right hle (le_of_lt hm)
        _ = maxSize := one_mul _
    · have hle : maxSize / max (w * (dpi / 72)) (h * (dpi / 72)) ≤ 1 :=
        le_of_lt ((div_lt_one hMpos).mpr hMS)
      exact mul_le_of_le_one_right (le_of_lt hz) hle
  · rw [adjustedZoom_eq_zoom w h dpi maxSize hcond]
    push_neg at hcond
    exact ⟨hcond.1, hcond.2, le_refl _, hz, haspect _ hz⟩

/-- C3 witness: an A4-like page of 595 by 842 points rendered at 300 dpi
under a ceiling of 1000 pixels. -/
theorem C3_raster_ceiling_witness :
    ((0:ℚ) < 595 ∧ (0:ℚ) < 842 ∧ (0:ℚ) < 300 ∧ (0:ℚ) < 1000) ∧
    (595 * adjustedZoom 595 842 300 1000 ≤ 1000 ∧
     842 * adjustedZoom 595 842 300 1000 ≤ 1000 ∧
     adjustedZoom 595 842 300 1000 ≤ 300 / 72 ∧
     0 < adjustedZoom 595 842 300 1000 ∧
     595 * adjustedZoom 595 842 300 1000 / (842 * adjustedZoom 595 842 300 1000) =
       595 / 842) :=
  ⟨by norm_num,
   C3_raster_ceiling 595 842 300 1000 (by norm_num) (by norm_num) (by norm_num)
     (by norm_num)⟩

/-- Processing steps enhance_image_with_settings (pdf_processor.py lines
244-298) can apply to an image, in the order it applies them. -/
inductive EnhOp where
  | convertRGB
  | autoEnhanceStep
  | brighten (factor : ℚ)
  | contrastStep (factor : ℚ)
  | sharpen (factor : ℚ)
  | saveJPEG (quality : Nat)
deriving DecidableEq, Repr

/-- JPEG quality chosen by enhance_image_with_settings (lines 282-286): 70
when the absolute brightness exceeds 30 or the contrast exceeds 1.5,
otherwise 85. -/
def saveQuality (contrast brightness : ℚ) : Nat :=
  if 30 < |brightness| ∨ 3 / 2 < contrast then 70 else 85

/-- Ordered operation list of enhance_image_with_settings: conversion to
RGB when the source mode differs, the auto enhance step when requested,
brightness scaling by 1 + brightness / 100 when brightness is nonzero,
contrast scaling when contrast is not 1, sharpening when sharpness is not
1, and always a final save as JPEG at the chosen quality. -/
def enhanceOps (isRGB : Bool) (contrast brightness sharpness : ℚ)
    (autoEnhance : Bool) : List EnhOp :=
  (if isRGB then [] else [EnhOp.convertRGB]) ++
  (if autoEnhance then [EnhOp.autoEnhanceStep] else []) ++
  (if brightness ≠ 0 then [EnhOp.brighten (1 + brightness / 100)] else []) ++
  (if contrast ≠ 1 then [EnhOp.contrastStep contrast] else []) ++
  (if sharpness ≠ 1 then [EnhOp.sharpen sharpness] else []) ++
  [EnhOp.saveJPEG (saveQuality contrast brightness)]

/-- C4: calling the enhancer with contrast 1.0, brightness 0, sharpness
1.0 and auto_enhance false is not an identity: the operation list of
enhance_image_with_settings on an RGB input is nonempty, because the
image is still re-encoded as a JPEG, so the output pixel data is not
guaranteed byte-for-byte equal to the input. -/
theorem C4_noop_reencodes_cex :
    enhanceOps true 1 0 1 false ≠ [] ∧
    enhanceOps true 1 0 1 false = [EnhOp.saveJPEG 85] := by
  have hq : saveQuality 1 0 = 85 := by norm_num [saveQuality]
  constructor
  · simp [enhanceOps]
  · simp [enhanceOps, hq]

/-- C4 amended: with contrast 1.0, brightness 0, sharpness 1.0 and
auto_enhance false on an RGB input, no tone transformation is applied but
the image is still saved as a JPEG at quality 85, a lossy re-encode, so
exact byte identity of the pixel data is not guaranteed. -/
theorem C4_noop_saves_jpeg :
    enhanceOps true 1 0 1 false = [EnhOp.saveJPEG 85] := by
  have hq : saveQuality 1 0 = 85 := by norm_num [saveQuality]
  simp [enhanceOps, hq]

/-- Steps of auto_enhance_image (pdf_processor.py lines 420-447). -/
inductive AutoOp where
  | percentileStretch
  | autocontrast (cutoff : Nat)
deriving DecidableEq, Repr

/-- Operation list of auto_enhance_image: the per channel percentile
stretch runs when the pixel array is three dimensional (an RGB image),
and ImageOps.autocontrast with cutoff 2 always runs afterwards. -/
def autoEnhanceOps (isRGBArray : Bool) : List AutoOp :=
  (if isRGBArray then [AutoOp.percentileStretch] else []) ++ [AutoOp.autocontrast 2]

/-- Per sample linear remap of the percentile stretch in
auto_enhance_image (lines 436-438): the value (x - lo) * 255 / (hi - lo)
clipped to the range 0 to 255, where lo and hi are the channel
percentiles. -/
def stretchSample (lo hi x : ℚ) : ℚ :=
  min 255 (max 0 ((x - lo) * 255 / (hi - lo)))

/-- C5: the auto enhance step is not exactly the per channel percentile
stretch: on an RGB image auto_enhance_image performs the stretch and then
a further transformation, ImageOps.autocontrast with cutoff 2. -/
theorem C5_autoenhance_extra_step_cex :
    autoEnhanceOps true ≠ [AutoOp.percentileStretch] ∧
    autoEnhanceOps true = [AutoOp.percentileStretch, AutoOp.autocontrast 2] := by
  decide

/-- C5 amended: on an RGB image the auto enhance step is the per channel
percentile stretch followed by autocontrast with cutoff 2; the stretch
maps the low percentile to 0 and the high percentile to 255 and stays
within 0 to 255; and in enhance_image_with_settings the auto enhance step
runs before the brightness step, which multiplies by 1 + brightness /
100, which runs before the contrast step. -/
theorem C5_autoenhance_pipeline (lo hi x b c : ℚ) (hb : b ≠ 0) (hc : c ≠ 1)
    (hlh : lo ≠ hi) :
    autoEnhanceOps true = [AutoOp.percentileStretch, AutoOp.autocontrast 2] ∧
    stretchSample lo hi lo = 0 ∧
    stretchSample lo hi hi = 255 ∧
    0 ≤ stretchSample lo hi x ∧
    stretchSample lo hi x ≤ 255 ∧
    enhanceOps true c b 1 true =
      [EnhOp.autoEnhanceStep, EnhOp.brighten (1 + b / 100), EnhOp.contrastStep c,
       EnhOp.saveJPEG (saveQuality c b)] := by
  refine ⟨by decide, ?_, ?_, ?_, ?_, ?_⟩
  · rw [stretchSample]
    norm_num
  · have hne : hi - lo ≠ 0 := sub_ne_zero.mpr (Ne.symm hlh)
    rw [stretchSample]
    have h255 : (hi - lo) * 255 / (hi - lo) = 255 := by field_simp
    rw [h255]
    norm_num
  · exact le_min (by norm_num) (le_max_left 0 _)
  · exact min_le_left 255 _
  · simp [enhanceOps, hb, hc]

/-- C5 amended, witness: percentiles 0 and 10, sample 5, brightness 20,
contrast 2. -/
theorem C5_autoenhance_pipeline_witness :
    (((20:ℚ) ≠ 0) ∧ ((2:ℚ) ≠ 1) ∧ ((0:ℚ) ≠ 10)) ∧
    (autoEnhanceOps true = [AutoOp.percentileStretch, AutoOp.autocontrast 2] ∧
     stretchSample 0 10 0 = 0 ∧
     stretchSample 0 10 10 = 255 ∧
     0 ≤ stretchSample 0 10 5 ∧
     stretchSample 0 10 5 ≤ 255 ∧
     enhanceOps true 2 20 1 true =
       [EnhOp.autoEnhanceStep, EnhOp.brighten (1 + 20 / 100), EnhOp.contrastStep 2,
        EnhOp.saveJPEG (saveQuality 2 20)]) :=
  ⟨⟨by norm_num, by norm_num, by norm_num⟩,
   C5_autoenhance_pipeline 0 10 5 20 2 (by norm_num) (by norm_num) (by norm_num)⟩

/-- Per user settings record persisted by PDFProcessor: the three fields
the claim names, with the types the code stores after validation. -/
structure Settings where
  contrast : ℚ
  brightness : Int
  dpi : Int
deriving DecidableEq, Repr

/-- Partial update dictionary passed to update_user_settings: a field is
none when the corresponding key is absent from the updates. -/
structure SettingsUpdate where
  contrast : Option ℚ
  brightness : Option Int
  dpi : Option Int
deriving DecidableEq, Repr

/-- update_user_settings (pdf_processor.py lines 800-817): each supplied
value is clamped, contrast to the range 0.5 to 10.0, brightness to -100
to 100, dpi to 72 to 600, and then stored; absent keys keep their stored
value.  No input is ever rejected. -/
def update_user_settings (s : Settings) (u : SettingsUpdate) : Settings :=
  ⟨match u.contrast with
   | some c => max (1 / 2) (min 10 c)
   | none => s.contrast,
   match u.brightness with
   | some b => max (-100) (min 100 b)
   | none => s.brightness,
   match u.dpi with
   | some d => max 72 (min 600 d)
   | none => s.dpi⟩

/-- Default record get_user_settings (pdf_processor.py lines 789-798)
inserts for a user without stored settings: dpi 300, contrast 1.15,
brightness 0. -/
def defaultNewUserSettings : Settings := ⟨23 / 20, 0, 300⟩

/-- process_custom_contrast (main.py lines 646-661): a typed-in contrast
is stored only when it lies in the range 0.5 to 2.0, otherwise the input
is rejected with an error message and nothing is stored. -/
def process_custom_contrast (s : Settings) (c : ℚ) : Option Settings :=
  if 1 / 2 ≤ c ∧ c ≤ 2 then some (update_user_settings s ⟨some c, none, none⟩)
  else none

/-- process_custom_brightness (main.py lines 664-679): a typed-in
brightness is stored only when it lies in the range -100 to 100,
otherwise the input is rejected and nothing is stored. -/
def process_custom_brightness (s : Settings) (b : Int) : Option Settings :=
  if -100 ≤ b ∧ b ≤ 100 then some (update_user_settings s ⟨none, some b, none⟩)
  else none

/-- C6: at the update_user_settings boundary an out-of-range value is not
rejected: updating contrast to 20 silently stores the clamp 10 rather
than leaving the record unchanged or erroring, and the documented lower
contrast bound 0.1 is wrong: the value 0.2, inside the documented range,
is silently raised to the code bound 0.5. -/
theorem C6_clamp_not_reject_cex :
    (update_user_settings defaultNewUserSettings ⟨some 20, none, none⟩).contrast = 10 ∧
    (update_user_settings defaultNewUserSettings ⟨some 20, none, none⟩).contrast ≠ 20 ∧
    (update_user_settings defaultNewUserSettings ⟨some 20, none, none⟩).contrast ≠
      defaultNewUserSettings.contrast ∧
    (update_user_settings defaultNewUserSettings ⟨some (1 / 5), none, none⟩).contrast
      = 1 / 2 ∧
    (1:ℚ) / 10 ≤ 1 / 5 ∧ (1:ℚ) / 5 ≤ 10 ∧ (1:ℚ) / 5 ≠ 1 / 2 := by
  refine ⟨?_, by norm_num [update_user_settings], ?_, ?_, by norm_num, by norm_num,
    by norm_num⟩
  · show max (1 / 2) (min 10 20) = 10
    norm_num
  · show max (1 / 2) (min 10 20) ≠ (23 : ℚ) / 20
    norm_num
  · show max (1 / 2) (min 10 (1 / 5)) = 1 / 2
    norm_num

/-- C6 amended: update_user_settings silently clamps every supplied value,
contrast into 0.5 to 10, brightness into -100 to 100, dpi into 72 to 600,
so any value stored through it lies within those code bounds; input
validation with rejection exists only in the chat handlers, which refuse
a custom contrast outside 0.5 to 2.0 and a custom brightness outside -100
to 100 without storing anything. -/
theorem C6_clamped_bounds (s : Settings) (u : SettingsUpdate) (c : ℚ) (b d : Int)
    (hc : u.contrast = some c) (hb : u.brightness = some b) (hd : u.dpi = some d) :
    (1 / 2 ≤ (update_user_settings s u).contrast ∧
     (update_user_settings s u).contrast ≤ 10) ∧
    (-100 ≤ (update_user_settings s u).brightness ∧
     (update_user_settings s u).brightness ≤ 100) ∧
    (72 ≤ (update_user_settings s u).dpi ∧ (update_user_settings s u).dpi ≤ 600) ∧
    (∀ x : ℚ, ¬(1 / 2 ≤ x ∧ x ≤ 2) → process_custom_contrast s x = none) ∧
    (∀ y : Int, ¬(-100 ≤ y ∧ y ≤ 100) → process_custom_brightness s y = none) := by
  refine ⟨?_, ?_, ?_, ?_, ?_⟩
  · rw [update_user_settings]
    simp only [hc]
    exact ⟨le_max_left _ _, max_le (by norm_num) (min_le_left _ _)⟩
  · rw [update_user_settings]
    simp only [hb]
    exact ⟨le_max_left _ _, max_le (by norm_num) (min_le_left _ _)⟩
  · rw [update_user_settings]
    simp only [hd]
    exact ⟨le_max_left _ _, max_le (by norm_num) (min_le_left _ _)⟩
  · intro x hx
    exact if_neg hx
  · intro y hy
    exact if_neg hy

/-- C6 amended, witness: updating contrast 20, brightness 500, dpi 10000
at once stores clamped values within all code bounds, and the handlers
reject out-of-range custom input. -/
theorem C6_clamped_bounds_witness :
    ((⟨some 20, some 500, some 10000⟩ : SettingsUpdate).contrast = some 20 ∧
     (⟨some 20, some 500, some 10000⟩ : SettingsUpdate).brightness = some 500 ∧
     (⟨some 20, some 500, some 10000⟩ : SettingsUpdate).dpi = some 10000) ∧
    ((1 / 2 ≤ (update_user_settings defaultNewUserSettings
        ⟨some 20, some 500, some 10000⟩).contrast ∧
      (update_user_settings defaultNewUserSettings
        ⟨some 20, some 500, some 10000⟩).contrast ≤ 10) ∧
     (-100 ≤ (update_user_settings defaultNewUserSettings
        ⟨some 20, some 500, some 10000⟩).brightness ∧
      (update_user_settings defaultNewUserSettings
        ⟨some 20, some 500, some 10000⟩).brightness ≤ 100) ∧
     (72 ≤ (update_user_settings defaultNewUserSettings
        ⟨some 20, some 500, some 10000⟩).dpi ∧
      (update_user_settings defaultNewUserSettings
        ⟨some 20, some 500, some 10000⟩).dpi ≤ 600) ∧
     (∀ x : ℚ, ¬(1 / 2 ≤ x ∧ x ≤ 2) →
        process_custom_contrast defaultNewUserSettings x = none) ∧
     (∀ y : Int, ¬(-100 ≤ y ∧ y ≤ 100) →
        process_custom_brightness defaultNewUserSettings y = none)) :=
  ⟨⟨rfl, rfl, rfl⟩,
   C6_clamped_bounds defaultNewUserSettings ⟨some 20, some 500, some 10000⟩
     20 500 10000 rfl rfl rfl⟩

/-- Observable outcome of one Ghostscript invocation: the process return
code, whether a file exists at the output path afterwards, and the byte
size of that file when it exists. -/
structure GsRun where
  exitCode : Int
  outputExists : Bool
  outputSize : Nat
deriving DecidableEq, Repr

/-- Success test of compress_with_ghostscript (pdf_processor.py line 170):
the return code is zero and a file exists at the output path; the size of
the file is never inspected. -/
def gsSuccess (r : GsRun) : Bool := r.exitCode == 0 && r.outputExists

/-- Outcome of compress_pdf_with_method when Ghostscript is available
(pdf_processor.py lines 72-86): the output size on success; when
compress_with_ghostscript raises, the exception is caught and none is
returned, so the caller falls through to its next method. -/
def compressWithMethodGs (r : GsRun) : Option Nat :=
  if gsSuccess r then some r.outputSize else none

/-- C7: the claimed success condition requires a non-empty output file,
but a run with exit code zero and an existing empty output file is
treated as success by the code: the biconditional of the claim fails at
that input. -/
theorem C7_empty_output_success_cex :
    gsSuccess ⟨0, true, 0⟩ = true ∧
    compressWithMethodGs ⟨0, true, 0⟩ = some 0 ∧
    ¬(gsSuccess ⟨0, true, 0⟩ = true ↔
      ((GsRun.mk 0 true 0).exitCode = 0 ∧ (GsRun.mk 0 true 0).outputExists = true ∧
       0 < (GsRun.mk 0 true 0).outputSize)) := by decide

/-- C7 amended: a Ghostscript attempt succeeds exactly when the process
exits with code zero and a file, possibly empty, exists at the output
path; on any other outcome the raised exception is caught inside
compress_pdf_with_method, which returns none so that the orchestrator
falls through to the next method instead of propagating the failure. -/
theorem C7_gs_success_iff (r : GsRun)
    (hfail : ¬(r.exitCode = 0 ∧ r.outputExists = true)) :
    (∀ q : GsRun, gsSuccess q = true ↔ (q.exitCode = 0 ∧ q.outputExists = true)) ∧
    compressWithMethodGs r = none := by
  constructor
  · intro q
    simp [gsSuccess, Bool.and_eq_true, beq_iff_eq]
  · by_cases hgs : gsSuccess r = true
    · exfalso
      apply hfail
      simp only [gsSuccess, Bool.and_eq_true, beq_iff_eq] at hgs
      exact hgs
    · simp [compressWithMethodGs, hgs]

/-- C7 amended, witness: a run with exit code 1 and an existing output is
a failure and yields none. -/
theorem C7_gs_success_iff_witness :
    (¬((GsRun.mk 1 true 5).exitCode = 0 ∧ (GsRun.mk 1 true 5).outputExists = true)) ∧
    ((∀ q : GsRun, gsSuccess q = true ↔ (q.exitCode = 0 ∧ q.outputExists = true)) ∧
     compressWithMethodGs ⟨1, true, 5⟩ = none) :=
  ⟨by decide, C7_gs_success_iff ⟨1, true, 5⟩ (by decide)⟩

/-- In-memory per user settings store of PDFProcessor: an association list
from user id to settings record, in insertion order. -/
abbrev Store : Type := List (Nat × Settings)

/-- Lookup of a user in the settings store. -/
def lookupSettings : Store → Nat → Option Settings
  | [], _ => none
  | (k, v) :: rest, uid => if k = uid then some v else lookupSettings rest uid

/-- get_user_settings (pdf_processor.py lines 789-798): returns the stored
record when the user is present; otherwise it inserts the default record
into the store and returns it.  The settings file is not written by this
read. -/
def get_user_settings (st : Store) (uid : Nat) : Settings × Store :=
  match lookupSettings st uid with
  | some s => (s, st)
  | none => (defaultNewUserSettings, st ++ [(uid, defaultNewUserSettings)])

/-- Settings store after the read that pdf_to_images_with_enhancement
(pdf_processor.py lines 459-464) performs at request start. -/
def pipelineReadStore (st : Store) (uid : Nat) : Store :=
  (get_user_settings st uid).2

/-- C9: the pipeline read is not mutation free: for a user with no stored
record, get_user_settings inserts the default record, so the store after
a request for user 1 starting from the empty store differs from the store
at request start. -/
theorem C9_store_mutated_cex :
    pipelineReadStore ([] : Store) 1 = [(1, defaultNewUserSettings)] ∧
    pipelineReadStore ([] : Store) 1 ≠ ([] : Store) := by
  constructor
  · rfl
  · intro h
    exact List.cons_ne_nil _ _ h

lemma lookupSettings_append_single (t : Store) (u v : Nat) (d : Settings)
    (hv : v ≠ u) :
    lookupSettings (t ++ [(u, d)]) v = lookupSettings t v := by
  induction t with
  | nil =>
    show (if u = v then some d else lookupSettings [] v) = none
    rw [if_neg (fun h => hv h.symm)]
    rfl
  | cons p rest ih =>
    obtain ⟨k, w⟩ := p
    show (if k = v then some w else lookupSettings (rest ++ [(u, d)]) v) =
      (if k = v then some w else lookupSettings rest v)
    by_cases hk : k = v
    · rw [if_pos hk, if_pos hk]
    · rw [if_neg hk, if_neg hk]
      exact ih

/-- C9 amended: the pipeline read leaves the store identical when the
requesting user already has a stored record, and never changes the entry
of any other user; but for a user with no stored record it inserts the
default record into the in-memory store, an observable mutation. -/
theorem C9_read_preserves_store (st : Store) (uid : Nat)
    (h : lookupSettings st uid ≠ none) :
    pipelineReadStore st uid = st ∧
    ∀ (t : Store) (u v : Nat), v ≠ u →
      lookupSettings (pipelineReadStore t u) v = lookupSettings t v := by
  constructor
  · rw [pipelineReadStore, get_user_settings]
    cases hcase : lookupSettings st uid with
    | none => exact absurd hcase h
    | some s => rfl
  · intro t u v hv
    rw [pipelineReadStore, get_user_settings]
    cases hcase : lookupSettings t u with
    | none => exact lookupSettings_append_single t u v defaultNewUserSettings hv
    | some s => rfl

/-- C9 amended, witness: user 1 already stored, user 2 unaffected. -/
theorem C9_read_preserves_store_witness :
    (lookupSettings [(1, defaultNewUserSettings)] 1 ≠ none) ∧
    (pipelineReadStore [(1, defaultNewUserSettings)] 1 =
       [(1, defaultNewUserSettings)] ∧
     ∀ (t : Store) (u v : Nat), v ≠ u →
       lookupSettings (pipelineReadStore t u) v = lookupSettings t v) :=
  ⟨by simp [lookupSettings], C9_read_preserves_store [(1, defaultNewUserSettings)] 1
    (by simp [lookupSettings])⟩

/-- Archive layout delivered by process_images (main.py lines 227-289):
the full list of page images, in order, is handed to a single
create_archive_from_images call, so exactly one archive unit is built;
the CHUNK_SIZE constant is defined but never used and no ceiling is
passed anywhere.  Units are represented by the byte sizes of their
images. -/
def processImagesUnits (sizes : List Nat) : List (List Nat) :=
  if sizes.isEmpty then [] else [sizes]

/-- Worker loop of the greedy packer: items still to place, the current
unit in reverse order, and its accumulated size. -/
def packLoop (ceiling : Nat) : List Nat → List Nat → Nat → List (List Nat)
  | [], cur, _ => if cur.isEmpty then [] else [cur.reverse]
  | s :: rest, cur, curSize =>
    if cur.isEmpty then packLoop ceiling rest [s] s
    else if curSize + s ≤ ceiling then packLoop ceiling rest (s :: cur) (curSize + s)
    else cur.reverse :: packLoop ceiling rest [s] s

/-- Modelled from the spec: pack_archive, the greedy bin packing of
section 4.6, which is absent from the source: main.py calls
create_archive_from_images, defined nowhere in the repository, and no
call site passes a ceiling.  Images are iterated in order and accumulated
into the current unit while the accumulated size plus the next image size
stays within the ceiling; otherwise the unit is closed and a new one
started containing that image. -/
def pack_archive (sizes : List Nat) (ceiling : Nat) : List (List Nat) :=
  packLoop ceiling sizes [] 0

/-- The 37 page images of 1.5MB each from the specification example. -/
def images37 : List Nat := List.replicate 37 1572864

/-- C8: process_images performs no bin packing: on 37 images of 1572864
bytes with the 40MB ceiling 41943040 it builds a single unit holding all
37 images, whose total 58195968 exceeds the ceiling, whereas the claimed
greedy packer would produce two units of 26 and 11 images, each within
the ceiling. -/
theorem C8_single_archive_no_packing :
    processImagesUnits images37 = [images37] ∧
    images37.sum = 58195968 ∧
    41943040 < images37.sum ∧
    pack_archive images37 41943040 =
      [List.replicate 26 1572864, List.replicate 11 1572864] ∧
    ∀ u ∈ pack_archive images37 41943040, u.sum ≤ 41943040 := by decide

/-- Percentile of a list of rationals as np.percentile computes it with
the default linear interpolation: the data is sorted, the fractional rank
is q of the way from 0 to length - 1, and the value interpolates between
the neighbouring order statistics. -/
def np_percentile (xs : List ℚ) (q : ℚ) : ℚ :=
  let s := xs.insertionSort (· ≤ ·)
  if s.length = 0 then 0
  else
    let pos : ℚ := q * ((s.length : ℚ) - 1) / 100
    let i : ℕ := (⌊pos⌋).toNat
    let lo := s.getD i 0
    let hi := s.getD (i + 1) lo
    lo + (pos - (⌊pos⌋ : ℚ)) * (hi - lo)

/-- Denominator of the linear remap in auto_enhance_image (pdf_processor.py
lines 431-438): the 98th percentile of the channel minus its 2nd
percentile, the divisor of the stretch formula. -/
def stretchDenominator (channel : List ℚ) : ℚ :=
  np_percentile channel 98 - np_percentile channel 2

lemma orderedInsert_replicate (c : ℚ) (n : ℕ) :
    List.orderedInsert (· ≤ ·) c (List.replicate n c) = List.replicate (n + 1) c := by
  cases n with
  | zero => rfl
  | succ m =>
    rw [List.replicate_succ]
    show (if c ≤ c then c :: c :: List.replicate m c
        else c :: List.orderedInsert (· ≤ ·) c (List.replicate m c)) = _
    rw [if_pos (le_refl c), List.replicate_succ, List.replicate_succ]

lemma insertionSort_replicate (c : ℚ) (n : ℕ) :
    (List.replicate n c).insertionSort (· ≤ ·) = List.replicate n c := by
  induction n with
  | zero => rfl
  | succ m ih =>
    rw [List.replicate_succ]
    show List.orderedInsert (· ≤ ·) c ((List.replicate m c).insertionSort (· ≤ ·)) =
      c :: List.replicate m c
    rw [ih, orderedInsert_replicate, List.replicate_succ]

lemma getD_replicate (c : ℚ) (n : ℕ) (d : ℚ) :
    ∀ i : ℕ, i < n → (List.replicate n c).getD i d = c := by
  induction n with
  | zero => intro i hi; exact absurd hi (Nat.not_lt_zero i)
  | succ m ih =>
    intro i hi
    rw [List.replicate_succ]
    cases i with
    | zero => rfl
    | succ j =>
      show (List.replicate m c).getD j d = c
      exact ih j (Nat.lt_of_succ_lt_succ hi)

lemma getD_replicate_default (c : ℚ) (n : ℕ) (d : ℚ) :
    ∀ i : ℕ, n ≤ i → (List.replicate n c).getD i d = d := by
  induction n with
  | zero => intro i _; cases i <;> rfl
  | succ m ih =>
    intro i hi
    rw [List.replicate_succ]
    cases i with
    | zero => exact absurd hi (Nat.not_succ_le_zero m)
    | succ j =>
      show (List.replicate m c).getD j d = d
      exact ih j (Nat.le_of_succ_le_succ hi)

lemma np_percentile_replicate (c : ℚ) (n : ℕ) (q : ℚ) (hn : 0 < n)
    (hq0 : 0 ≤ q) (hq1 : q ≤ 100) :
    np_percentile (List.replicate n c) q = c := by
  simp only [np_percentile, insertionSort_replicate, List.length_replicate,
    if_neg (by omega : ¬(n = 0))]
  have h1n : (1:ℚ) ≤ (n:ℚ) := by exact_mod_cast hn
  have hx : (0:ℚ) ≤ (n:ℚ) - 1 := by linarith
  have hposle : q * ((n:ℚ) - 1) / 100 ≤ (n:ℚ) - 1 := by
    rw [div_le_iff₀ (by norm_num : (0:ℚ) < 100)]
    nlinarith [mul_le_mul_of_nonneg_right hq1 hx]
  have hfloorle : ⌊q * ((n:ℚ) - 1) / 100⌋ ≤ (n:ℤ) - 1 := by
    have : ((n:ℤ) - 1 : ℤ) = ⌊((n:ℚ) - 1)⌋ := by
      rw [show ((n:ℚ) - 1) = (((n:ℤ) - 1 : ℤ) : ℚ) by push_cast; ring,
        Int.floor_intCast]
    rw [this]
    exact Int.floor_le_floor hposle
  have hi : (⌊q * ((n:ℚ) - 1) / 100⌋).toNat < n := by omega
  rw [getD_replicate c n 0 _ hi]
  by_cases h2 : (⌊q * ((n:ℚ) - 1) / 100⌋).toNat + 1 < n
  · rw [getD_replicate c n c _ h2]
    ring
  · rw [getD_replicate_default c n c _ (by omega)]
    ring

/-- C10: for every constant color channel of positive length, the 2nd and
98th percentiles computed by auto_enhance_image coincide with the
constant, so the divisor of the per channel linear remap, the 98th minus
the 2nd percentile, is zero: the division-by-zero branch of the stretch
is reachable, and the computation avoids it only when every channel has
distinct 2nd and 98th percentiles. -/
theorem C10_constant_channel_zero_denominator (n : ℕ) (c : ℚ) (h : 0 < n) :
    np_percentile (List.replicate n c) 2 = c ∧
    np_percentile (List.replicate n c) 98 = c ∧
    stretchDenominator (List.replicate n c) = 0 := by
  have h2 := np_percentile_replicate c n 2 h (by norm_num) (by norm_num)
  have h98 := np_percentile_replicate c n 98 h (by norm_num) (by norm_num)
  refine ⟨h2, h98, ?_⟩
  rw [stretchDenominator, h2, h98]
  ring

/-- C10 witness: a four pixel channel constant at 128. -/
theorem C10_constant_channel_zero_denominator_witness :
    0 < 4 ∧
    (np_percentile (List.replicate 4 128) 2 = 128 ∧
     np_percentile (List.replicate 4 128) 98 = 128 ∧
     stretchDenominator (List.replicate 4 128) = 0) :=
  ⟨by norm_num, C10_constant_channel_zero_denominator 4 128 (by norm_num)⟩

end TelegramBotPDF
